import Mathlib

/-!
Verification of the tinySAK counting-semaphore wrapper
(src/trunk/tinySAK/src/tsk_semaphore.c).

The file shallowly embeds the four operations of the wrapper —
tsk_semaphore_create, tsk_semaphore_increment, tsk_semaphore_decrement and
tsk_semaphore_destroy — for both compile-time variants (the
TSK_UNDER_WINDOWS branch and the POSIX branch).  Platform calls
(CreateSemaphore, ReleaseSemaphore, WaitForSingleObject, CloseHandle,
sem_init, sem_post, sem_wait, sem_destroy) and the memory helpers are
external collaborators: their results enter the embedded functions as
explicit oracle arguments, and every call the C code issues is recorded in
a trace so that statements such as "no platform call is performed" or
"sem_init is applied to the null wrapper" are expressible.

Machine integers are modelled as Int; handles as Option Nat with none for
the C null pointer.  errno is explicit state threaded through the POSIX
wait loop: a completed sem_wait either succeeds (returns 0 and leaves errno
unchanged — POSIX functions do not reset errno on success), is interrupted
(returns -1 and sets errno to EINTR), or fails (returns -1 and sets errno
to the failure code).
-/

/-- Numeric value of the errno constant EINVAL (22 on the targeted
platforms; tsk_errno.h mirrors the CRT values on Windows). -/
def EINVAL : Int := 22

/-- Numeric value of the errno constant EINTR (4 on the targeted
platforms). -/
def EINTR : Int := 4

/-- One platform or allocator call issued by the C code, together with the
arguments the code passes.  A handle argument of none records that the C
code passed a null pointer to the platform call. -/
inductive PlatCall where
  /-- tsk_calloc(1, sizeof(SEMAPHORE_T)) on the POSIX create path. -/
  | callocWrapper : PlatCall
  /-- sem_init(handle, PTHREAD_PROCESS_PRIVATE, value); the pshared
  constant is fixed in the source and omitted here. -/
  | semInit (handle : Option Nat) (value : Nat) : PlatCall
  /-- sem_post(handle). -/
  | semPost (handle : Nat) : PlatCall
  /-- sem_wait(handle). -/
  | semWait (handle : Nat) : PlatCall
  /-- sem_destroy(handle). -/
  | semDestroy (handle : Nat) : PlatCall
  /-- free of a heap block previously returned by the allocator. -/
  | freeMem (handle : Nat) : PlatCall
  /-- CreateSemaphore(NULL, initial, maxCount, NULL) on the Windows path. -/
  | createSemaphore (initial : Nat) (maxCount : Nat) : PlatCall
  /-- ReleaseSemaphore(handle, 1, 0) on the Windows path. -/
  | releaseSemaphore (handle : Nat) : PlatCall
  /-- WaitForSingleObject(handle, INFINITE) on the Windows path. -/
  | waitForSingleObject (handle : Nat) : PlatCall
  /-- CloseHandle(handle) on the Windows path. -/
  | closeHandle (handle : Nat) : PlatCall
deriving DecidableEq, Repr

/-- Result of tsk_semaphore_increment and of the Windows variant of
tsk_semaphore_decrement: the int return value, the platform calls issued,
and the number of TSK_DEBUG_ERROR diagnostics emitted (the logger is
observational only and never alters control flow). -/
structure OpResult where
  ret : Int
  calls : List PlatCall
  errorLogs : Nat
deriving DecidableEq, Repr

/-- Modelled from the spec: the zero-initializing memory helper tsk_free
(tsk_memory, implementation not under src/) releases the block the
variable points to, when there is one, and always clears the variable to
the null sentinel.  TSK_FREE(x) in the source expands to a tsk_free call
on the address of x. -/
def tsk_free (slot : Option Nat) : Option Nat × List PlatCall :=
  match slot with
  | some h => (none, [PlatCall.freeMem h])
  | none => (none, [])

/-- Initial counter value passed by tsk_semaphore_create to
CreateSemaphore on the Windows path (second argument, 0). -/
def winSemInitial : Nat := 0

/-- Maximum counter value passed by tsk_semaphore_create to
CreateSemaphore on the Windows path (third argument, 0x7FFFFFFF). -/
def winSemMax : Nat := 0x7FFFFFFF

/-- Result of tsk_semaphore_create: the returned handle, the calls issued,
and the TSK_DEBUG_ERROR diagnostics emitted. -/
structure CreateResult where
  handle : Option Nat
  calls : List PlatCall
  errorLogs : Nat
deriving DecidableEq, Repr

/-- POSIX branch of tsk_semaphore_create.  allocResult is the block
returned by tsk_calloc (none on exhaustion); semInitRet is the int
returned by sem_init for this call.  The source assigns the tsk_calloc
result to handle and then calls sem_init on it unconditionally — also
when tsk_calloc returned null; on a nonzero sem_init result it runs
TSK_FREE(handle) and logs, and finally logs again if handle is null
before returning handle. -/
def tsk_semaphore_create (allocResult : Option Nat) (semInitRet : Int) : CreateResult :=
  let handle0 := allocResult
  let afterInit :=
    if semInitRet = 0 then (handle0, ([] : List PlatCall), (0 : Nat))
    else
      let fr := tsk_free handle0
      (fr.1, fr.2, 1)
  let finalLogs := afterInit.2.2 + (if afterInit.1 = none then 1 else 0)
  ⟨afterInit.1, PlatCall.callocWrapper :: PlatCall.semInit handle0 0 :: afterInit.2.1, finalLogs⟩

/-- Windows branch of tsk_semaphore_create: the handle is whatever
CreateSemaphore(NULL, 0, 0x7FFFFFFF, NULL) returned (none for NULL), with
an error log when it is null. -/
def tsk_semaphore_create_win (createRet : Option Nat) : CreateResult :=
  ⟨createRet, [PlatCall.createSemaphore winSemInitial winSemMax],
    if createRet = none then 1 else 0⟩

/-- POSIX branch of tsk_semaphore_increment.  ret starts as EINVAL; only
when the handle is non-null is sem_post called and its return value (0 on
success, -1 on failure, per POSIX) assigned to ret, with an error log when
it is nonzero. -/
def tsk_semaphore_increment (handle : Option Nat) (postRet : Int) : OpResult :=
  match handle with
  | none => ⟨EINVAL, [], 0⟩
  | some h => ⟨postRet, [PlatCall.semPost h], if postRet = 0 then 0 else 1⟩

/-- Windows branch of tsk_semaphore_increment: ret is 0 when
ReleaseSemaphore succeeded and -1 otherwise, with an error log on
failure; a null handle returns the initial EINVAL with no platform
call. -/
def tsk_semaphore_increment_win (handle : Option Nat) (releaseOk : Bool) : OpResult :=
  match handle with
  | none => ⟨EINVAL, [], 0⟩
  | some h =>
      ⟨if releaseOk then 0 else -1, [PlatCall.releaseSemaphore h],
        if releaseOk then 0 else 1⟩

/-- Outcome of one completed sem_wait call, supplied by the oracle trace:
the call decremented the counter and returned 0, or it was interrupted by
a signal, or it failed with errno code e. -/
inductive SemWaitOutcome where
  | success : SemWaitOutcome
  | interrupted : SemWaitOutcome
  | failure (e : Int) : SemWaitOutcome
deriving DecidableEq, Repr

/-- Return value and resulting errno of one sem_wait call given the errno
value before the call: success returns 0 and leaves errno untouched (no
POSIX function resets errno to 0 on success); an interruption returns -1
setting errno to EINTR; a failure returns -1 setting errno to its code. -/
def semWaitCall (errno : Int) (o : SemWaitOutcome) : Int × Int :=
  match o with
  | .success => (0, errno)
  | .interrupted => (-1, EINTR)
  | .failure e => (-1, e)

/-- Number of permits a sem_wait outcome consumed: 1 for a successful
decrement, 0 otherwise. -/
def permitsOf : SemWaitOutcome → Nat
  | .success => 1
  | .interrupted => 0
  | .failure _ => 0

/-- Result of the POSIX wait loop: the final ret and errno, the number of
sem_wait calls issued, and the number of permits consumed. -/
structure LoopOut where
  ret : Int
  errno : Int
  calls : Nat
  permits : Nat
deriving DecidableEq, Repr

/-- The loop do { ret = sem_wait(handle); } while (errno == EINTR) of
tsk_semaphore_decrement, run against a finite trace of completed sem_wait
outcomes.  Each iteration consumes one outcome; the loop repeats exactly
when errno equals EINTR after the call, whatever ret is.  none means the
trace was exhausted with the loop still running (the next sem_wait blocks
with no further completion), so the C call has not returned. -/
def decLoop (errno : Int) : List SemWaitOutcome → Option LoopOut
  | [] => none
  | o :: rest =>
      let r := semWaitCall errno o
      if r.2 = EINTR then
        (decLoop r.2 rest).map
          (fun lr => ⟨lr.ret, lr.errno, lr.calls + 1, lr.permits + permitsOf o⟩)
      else
        some ⟨r.1, r.2, 1, permitsOf o⟩

/-- Result of the POSIX branch of tsk_semaphore_decrement, when the call
returns: ret, final errno, sem_wait calls issued, permits consumed, and
TSK_DEBUG_ERROR diagnostics emitted. -/
structure DecResult where
  ret : Int
  errno : Int
  semWaitCalls : Nat
  permits : Nat
  errorLogs : Nat
deriving DecidableEq, Repr

/-- POSIX branch of tsk_semaphore_decrement.  ret starts as EINVAL and is
returned untouched, with no platform call, when the handle is null;
otherwise the sem_wait retry loop runs (errno0 is the thread errno value
on entry) and a nonzero final ret is logged.  none means the call has not
returned (blocked or still looping beyond the supplied trace). -/
def tsk_semaphore_decrement (handle : Option Nat) (errno0 : Int)
    (trace : List SemWaitOutcome) : Option DecResult :=
  match handle with
  | none => some ⟨EINVAL, errno0, 0, 0, 0⟩
  | some _ =>
      (decLoop errno0 trace).map
        (fun lr => ⟨lr.ret, lr.errno, lr.calls, lr.permits,
          if lr.ret = 0 then 0 else 1⟩)

/-- Result codes of WaitForSingleObject relevant to the Windows branch. -/
inductive WinWaitRet where
  | waitObject0 : WinWaitRet
  | waitAbandoned : WinWaitRet
  | waitTimeout : WinWaitRet
  | waitFailed : WinWaitRet
deriving DecidableEq, Repr

/-- Windows branch of tsk_semaphore_decrement: ret is 0 exactly when
WaitForSingleObject returned WAIT_OBJECT_0 and -1 otherwise, with an
error log on failure; a null handle returns the initial EINVAL with no
platform call. -/
def tsk_semaphore_decrement_win (handle : Option Nat) (w : WinWaitRet) : OpResult :=
  match handle with
  | none => ⟨EINVAL, [], 0⟩
  | some h =>
      ⟨(match w with | .waitObject0 => 0 | _ => -1),
        [PlatCall.waitForSingleObject h],
        (match w with | .waitObject0 => 0 | _ => 1)⟩

/-- Result of tsk_semaphore_destroy: the state of the caller reference
after the call (the handle slot possibly rewritten), the platform calls
issued, and whether the TSK_DEBUG_WARN diagnostic fired.  The C function
returns void: there is no status field because no failure can be
reported. -/
structure DestroyResult where
  ref : Option (Option Nat)
  calls : List PlatCall
  warned : Bool
deriving DecidableEq, Repr

/-- POSIX branch of tsk_semaphore_destroy.  The argument is the caller
reference: none models a null tsk_semaphore_handle_t** pointer, some slot
models a valid pointer to a handle slot.  With a non-null reference to a
non-null handle the source runs sem_destroy(*handle) then
tsk_free(handle), which releases the wrapper block and clears the slot to
null; in every other case it only emits the warning. -/
def tsk_semaphore_destroy (ref : Option (Option Nat)) : DestroyResult :=
  match ref with
  | some (some h) =>
      let fr := tsk_free (some h)
      ⟨some fr.1, PlatCall.semDestroy h :: fr.2, false⟩
  | some none => ⟨some none, [], true⟩
  | none => ⟨none, [], true⟩

/-- Windows branch of tsk_semaphore_destroy: CloseHandle(*handle) followed
by the assignment of 0 to *handle, the warning otherwise. -/
def tsk_semaphore_destroy_win (ref : Option (Option Nat)) : DestroyResult :=
  match ref with
  | some (some h) => ⟨some none, [PlatCall.closeHandle h], false⟩
  | some none => ⟨some none, [], true⟩
  | none => ⟨none, [], true⟩

/-- A call site of the POSIX tsk_semaphore_increment: C passes the handle
by value, so the callee receives only the value read from the caller slot
and the slot itself stays as it was. -/
def callIncrement (slot : Option Nat) (postRet : Int) : Option Nat × OpResult :=
  (slot, tsk_semaphore_increment slot postRet)

/-- A call site of the Windows tsk_semaphore_increment (handle passed by
value). -/
def callIncrementWin (slot : Option Nat) (releaseOk : Bool) : Option Nat × OpResult :=
  (slot, tsk_semaphore_increment_win slot releaseOk)

/-- A call site of the POSIX tsk_semaphore_decrement (handle passed by
value). -/
def callDecrement (slot : Option Nat) (errno0 : Int) (trace : List SemWaitOutcome) :
    Option Nat × Option DecResult :=
  (slot, tsk_semaphore_decrement slot errno0 trace)

/-- A call site of the Windows tsk_semaphore_decrement (handle passed by
value). -/
def callDecrementWin (slot : Option Nat) (w : WinWaitRet) : Option Nat × OpResult :=
  (slot, tsk_semaphore_decrement_win slot w)

/-- Abstract state of the platform counting semaphore backing a handle: a
counter together with the maximum it may reach (0x7FFFFFFF for the
Windows object created by tsk_semaphore_create; SEM_VALUE_MAX for a POSIX
semaphore). -/
structure PlatformSem where
  count : Nat
  maxCount : Nat
deriving DecidableEq, Repr

/-- One signal on the platform semaphore: increments the counter when it
is below the maximum; none models the platform failure when the counter
would overflow its maximum. -/
def semSignal (s : PlatformSem) : Option PlatformSem :=
  if s.count < s.maxCount then some ⟨s.count + 1, s.maxCount⟩ else none

/-- One wait on the platform semaphore: decrements a positive counter;
none models the blocked state at counter zero (the platform wait does not
complete until a further signal). -/
def semTryWait (s : PlatformSem) : Option PlatformSem :=
  match s.count with
  | 0 => none
  | n + 1 => some ⟨n, s.maxCount⟩

/-- n consecutive signals on the platform semaphore, failing if any
overflows. -/
def signalN : Nat → PlatformSem → Option PlatformSem
  | 0, s => some s
  | n + 1, s =>
      match semSignal s with
      | none => none
      | some s2 => signalN n s2

/-- n consecutive waits on the platform semaphore, failing if any
blocks. -/
def waitN : Nat → PlatformSem → Option PlatformSem
  | 0, s => some s
  | n + 1, s =>
      match semTryWait s with
      | none => none
      | some s2 => waitN n s2

lemma signalN_fill (M : Nat) : ∀ (n c : Nat), c + n ≤ M →
    signalN n ⟨c, M⟩ = some ⟨c + n, M⟩ := by
  intro n
  induction n with
  | zero => intro c _; simp [signalN]
  | succ k ih =>
      intro c hc
      have hlt : c < M := by omega
      have hs : signalN (k + 1) ⟨c, M⟩ = signalN k ⟨c + 1, M⟩ := by
        simp [signalN, semSignal, hlt]
      have harith : c + 1 + k = c + (k + 1) := by omega
      rw [hs, ih (c + 1) (by omega), harith]

lemma waitN_drain (M : Nat) : ∀ n : Nat, waitN n ⟨n, M⟩ = some ⟨0, M⟩ := by
  intro n
  induction n with
  | zero => simp [waitN]
  | succ k ih =>
      have hs : waitN (k + 1) ⟨k + 1, M⟩ = waitN k ⟨k, M⟩ := by
        simp [waitN, semTryWait]
      rw [hs, ih]

/-- C1: the claim says an EINTR-interrupted wait is retried transparently,
returning success exactly when one decrement completes and consuming one
permit like an uninterrupted wait.  The code violates this: the loop
repeats while errno equals EINTR, and a successful sem_wait leaves errno
untouched, so after one interruption the successful retried decrement does
not end the call (the loop issues sem_wait again, also after a further
success), and when a later sem_wait fails with a different code the call
returns -1 with one permit already consumed. -/
theorem decrement_interrupted_wait_not_transparent :
    tsk_semaphore_decrement (some 0) 0
      [SemWaitOutcome.interrupted, SemWaitOutcome.success] = none ∧
    tsk_semaphore_decrement (some 0) 0
      [SemWaitOutcome.interrupted, SemWaitOutcome.success, SemWaitOutcome.success] = none ∧
    tsk_semaphore_decrement (some 0) 0
      [SemWaitOutcome.interrupted, SemWaitOutcome.success, SemWaitOutcome.failure 22] =
      some ⟨-1, 22, 3, 1, 1⟩ := by
  refine ⟨by decide, by decide, by decide⟩

/-- C2: signal and wait called with a null handle return the
invalid-argument code EINVAL (a positive, hence non-success, value),
issue no platform call — in particular the null handle is never passed to
the platform — and leave the diagnostic counters at zero, on both the
POSIX and the Windows branches. -/
theorem null_handle_invalid_argument (postRet : Int) (releaseOk : Bool)
    (errno0 : Int) (trace : List SemWaitOutcome) (w : WinWaitRet) :
    tsk_semaphore_increment none postRet = ⟨EINVAL, [], 0⟩ ∧
    tsk_semaphore_increment_win none releaseOk = ⟨EINVAL, [], 0⟩ ∧
    tsk_semaphore_decrement none errno0 trace = some ⟨EINVAL, errno0, 0, 0, 0⟩ ∧
    tsk_semaphore_decrement_win none w = ⟨EINVAL, [], 0⟩ ∧
    (0 : Int) < EINVAL :=
  ⟨rfl, rfl, rfl, rfl, by decide⟩

/-- C3: when tsk_calloc returns null, create does return a null handle,
but the claim that the platform object-init call is not applied to the
null wrapper fails: the source calls sem_init on the tsk_calloc result
unconditionally, so sem_init is invoked on the null wrapper (undefined
behaviour in C), whatever result that call then yields. -/
theorem create_alloc_failure_inits_null_wrapper :
    (tsk_semaphore_create none (-1)).handle = none ∧
    PlatCall.semInit none 0 ∈ (tsk_semaphore_create none (-1)).calls ∧
    (tsk_semaphore_create none 0).handle = none ∧
    PlatCall.semInit none 0 ∈ (tsk_semaphore_create none 0).calls := by
  refine ⟨by decide, by decide, by decide, by decide⟩

/-- C4: when the wrapper allocation succeeded but sem_init returns a
nonzero failure, create releases the wrapper block (a freeMem call on it
appears in the trace), logs, and returns a null handle — the failure path
leaks nothing and never yields a live instance. -/
theorem create_partial_failure_frees_wrapper (a : Nat) (r : Int) (hr : r ≠ 0) :
    (tsk_semaphore_create (some a) r).handle = none ∧
    PlatCall.freeMem a ∈ (tsk_semaphore_create (some a) r).calls ∧
    1 ≤ (tsk_semaphore_create (some a) r).errorLogs := by
  simp [tsk_semaphore_create, tsk_free, hr]

theorem create_partial_failure_frees_wrapper_witness :
    (-1 : Int) ≠ 0 ∧
    ((tsk_semaphore_create (some 5) (-1)).handle = none ∧
     PlatCall.freeMem 5 ∈ (tsk_semaphore_create (some 5) (-1)).calls ∧
     1 ≤ (tsk_semaphore_create (some 5) (-1)).errorLogs) :=
  ⟨by decide, create_partial_failure_frees_wrapper 5 (-1) (by decide)⟩

/-- C5: destroy on a valid reference to a live (non-null) handle releases
the platform object (sem_destroy on the POSIX branch, CloseHandle on the
Windows branch), releases the wrapper block on the POSIX branch, and
rewrites the handle slot to the null sentinel. -/
theorem destroy_live_releases_and_clears (h : Nat) :
    tsk_semaphore_destroy (some (some h)) =
      ⟨some none, [PlatCall.semDestroy h, PlatCall.freeMem h], false⟩ ∧
    tsk_semaphore_destroy_win (some (some h)) =
      ⟨some none, [PlatCall.closeHandle h], false⟩ :=
  ⟨rfl, rfl⟩

/-- C6: destroy is total and returns nothing (DestroyResult carries no
status field because the C function is void); with a null reference or a
reference whose slot already holds the null sentinel — including the
second of two destroys of the same slot — it issues no platform call,
leaves the reference state unchanged, and only raises the warning
diagnostic, on both branches. -/
theorem destroy_null_noop_warns (h : Nat) :
    tsk_semaphore_destroy none = ⟨none, [], true⟩ ∧
    tsk_semaphore_destroy (some none) = ⟨some none, [], true⟩ ∧
    tsk_semaphore_destroy ((tsk_semaphore_destroy (some (some h))).ref) =
      ⟨some none, [], true⟩ ∧
    tsk_semaphore_destroy_win none = ⟨none, [], true⟩ ∧
    tsk_semaphore_destroy_win (some none) = ⟨some none, [], true⟩ ∧
    tsk_semaphore_destroy_win ((tsk_semaphore_destroy_win (some (some h))).ref) =
      ⟨some none, [], true⟩ :=
  ⟨rfl, rfl, rfl, rfl, rfl, rfl⟩

/-- C7: create starts the counter at 0 and sets the maximum to the largest
representable positive 32-bit count: the Windows branch passes initial 0
and maximum 0x7FFFFFFF = 2 ^ 31 - 1 to CreateSemaphore, and the POSIX
branch passes value 0 to sem_init; on the platform counter model, N
signals from 0 all succeed reaching N, N waits then all succeed reaching
0, and the next wait blocks. -/
theorem create_counter_zero_max_int31 (N r a : Nat) (i : Int)
    (hN : N ≤ winSemMax) :
    winSemInitial = 0 ∧ winSemMax = 2 ^ 31 - 1 ∧
    PlatCall.createSemaphore winSemInitial winSemMax ∈
      (tsk_semaphore_create_win (some r)).calls ∧
    PlatCall.semInit (some a) 0 ∈ (tsk_semaphore_create (some a) i).calls ∧
    signalN N ⟨winSemInitial, winSemMax⟩ = some ⟨N, winSemMax⟩ ∧
    waitN N ⟨N, winSemMax⟩ = some ⟨0, winSemMax⟩ ∧
    semTryWait ⟨0, winSemMax⟩ = none := by
  refine ⟨rfl, by decide, ?_, ?_, ?_, waitN_drain winSemMax N, rfl⟩
  · simp [tsk_semaphore_create_win]
  · by_cases hi : i = 0 <;> simp [tsk_semaphore_create, tsk_free, hi]
  · have hfill := signalN_fill winSemMax N 0 (by omega)
    simpa [winSemInitial] using hfill

theorem create_counter_zero_max_int31_witness :
    (3 : Nat) ≤ winSemMax ∧
    (winSemInitial = 0 ∧ winSemMax = 2 ^ 31 - 1 ∧
     PlatCall.createSemaphore winSemInitial winSemMax ∈
       (tsk_semaphore_create_win (some 1)).calls ∧
     PlatCall.semInit (some 2) 0 ∈ (tsk_semaphore_create (some 2) 0).calls ∧
     signalN 3 ⟨winSemInitial, winSemMax⟩ = some ⟨3, winSemMax⟩ ∧
     waitN 3 ⟨3, winSemMax⟩ = some ⟨0, winSemMax⟩ ∧
     semTryWait ⟨0, winSemMax⟩ = none) :=
  ⟨by decide, create_counter_zero_max_int31 3 1 2 0 (by decide)⟩

/-- C8: the C signatures pass the handle to signal and wait by value, so a
call site leaves the caller handle slot exactly as it was, whatever the
outcome, on both branches; destroy, which alone receives the address of
the slot, does rewrite it on a live handle. -/
theorem signal_wait_preserve_caller_slot (slot : Option Nat) (postRet : Int)
    (releaseOk : Bool) (errno0 : Int) (trace : List SemWaitOutcome) (w : WinWaitRet) :
    (callIncrement slot postRet).1 = slot ∧
    (callIncrementWin slot releaseOk).1 = slot ∧
    (callDecrement slot errno0 trace).1 = slot ∧
    (callDecrementWin slot w).1 = slot ∧
    (tsk_semaphore_destroy (some (some 7))).ref ≠ some (some 7) :=
  ⟨rfl, rfl, rfl, rfl, by decide⟩

/-- C9: the claim says the retry loop of the POSIX wait returns as soon as
sem_wait succeeds, for every prior errno value.  The code violates this
for a stale EINTR: with errno already EINTR on entry, a first-call
successful decrement leaves errno at EINTR so the loop runs another
sem_wait instead of returning — and if that second call fails with
another code, the call surfaces -1 although a decrement had completed;
with any other prior errno the success is returned at once. -/
theorem decrement_stale_eintr_not_returned :
    tsk_semaphore_decrement (some 0) EINTR [SemWaitOutcome.success] = none ∧
    tsk_semaphore_decrement (some 0) EINTR
      [SemWaitOutcome.success, SemWaitOutcome.failure 22] = some ⟨-1, 22, 2, 1, 1⟩ ∧
    tsk_semaphore_decrement (some 0) 0 [SemWaitOutcome.success] =
      some ⟨0, 0, 1, 1, 0⟩ := by
  refine ⟨by decide, by decide, by decide⟩

/-- C10: the return codes separate the error kinds: a null handle yields
the positive code EINVAL from all four operations; a platform failure on
a non-null handle yields -1 (computed on the Windows branch, passed
through from the sem_ call on the POSIX branch, where a non-EINTR failing
sem_wait ends the loop with its -1); a successful operation yields 0. -/
theorem return_codes_distinguish_error_kind (hh : Nat) (e f : Int) (w : WinWaitRet)
    (he : e ≠ EINTR) (hf : f ≠ EINTR) (hw : w ≠ WinWaitRet.waitObject0) :
    ((tsk_semaphore_increment none 0).ret = EINVAL ∧
     (tsk_semaphore_increment_win none true).ret = EINVAL ∧
     Option.map DecResult.ret (tsk_semaphore_decrement none e []) = some EINVAL ∧
     (tsk_semaphore_decrement_win none w).ret = EINVAL ∧
     (0 : Int) < EINVAL) ∧
    ((tsk_semaphore_increment_win (some hh) false).ret = -1 ∧
     (tsk_semaphore_decrement_win (some hh) w).ret = -1 ∧
     (tsk_semaphore_increment (some hh) (-1)).ret = -1 ∧
     Option.map DecResult.ret
       (tsk_semaphore_decrement (some hh) e [SemWaitOutcome.failure f]) = some (-1)) ∧
    ((tsk_semaphore_increment (some hh) 0).ret = 0 ∧
     (tsk_semaphore_increment_win (some hh) true).ret = 0 ∧
     (tsk_semaphore_decrement_win (some hh) WinWaitRet.waitObject0).ret = 0 ∧
     Option.map DecResult.ret
       (tsk_semaphore_decrement (some hh) e [SemWaitOutcome.success]) = some 0) := by
  refine ⟨⟨rfl, rfl, rfl, rfl, by decide⟩, ⟨rfl, ?_, rfl, ?_⟩, ⟨rfl, rfl, rfl, ?_⟩⟩
  · cases w with
    | waitObject0 => exact absurd rfl hw
    | waitAbandoned => rfl
    | waitTimeout => rfl
    | waitFailed => rfl
  · simp [tsk_semaphore_decrement, decLoop, semWaitCall, hf, permitsOf]
  · simp [tsk_semaphore_decrement, decLoop, semWaitCall, he, permitsOf]

theorem return_codes_distinguish_error_kind_witness :
    ((0 : Int) ≠ EINTR ∧ (22 : Int) ≠ EINTR ∧
     WinWaitRet.waitFailed ≠ WinWaitRet.waitObject0) ∧
    (((tsk_semaphore_increment none 0).ret = EINVAL ∧
      (tsk_semaphore_increment_win none true).ret = EINVAL ∧
      Option.map DecResult.ret (tsk_semaphore_decrement none 0 []) = some EINVAL ∧
      (tsk_semaphore_decrement_win none WinWaitRet.waitFailed).ret = EINVAL ∧
      (0 : Int) < EINVAL) ∧
     ((tsk_semaphore_increment_win (some 1) false).ret = -1 ∧
      (tsk_semaphore_decrement_win (some 1) WinWaitRet.waitFailed).ret = -1 ∧
      (tsk_semaphore_increment (some 1) (-1)).ret = -1 ∧
      Option.map DecResult.ret
        (tsk_semaphore_decrement (some 1) 0 [SemWaitOutcome.failure 22]) = some (-1)) ∧
     ((tsk_semaphore_increment (some 1) 0).ret = 0 ∧
      (tsk_semaphore_increment_win (some 1) true).ret = 0 ∧
      (tsk_semaphore_decrement_win (some 1) WinWaitRet.waitObject0).ret = 0 ∧
      Option.map DecResult.ret
        (tsk_semaphore_decrement (some 1) 0 [SemWaitOutcome.success]) = some 0)) :=
  ⟨⟨by decide, by decide, by decide⟩,
    return_codes_distinguish_error_kind 1 0 22 WinWaitRet.waitFailed
      (by decide) (by decide) (by decide)⟩
